import Mathlib

/-!
Verification of the monitowl-agent specification against its code.

The development shallowly embeds the relevant parts of the repository:

* `whmonit/common/time.py` — timestamp checking and the conversions
  between millisecond timestamps and naive `datetime` objects;
* `whmonit/common/log.py` — the `AgentErrorLogHandler` error channel;
* the agent proper (`whmonit/client/agent.py` is not part of the source
  tree; only its tests are), whose operations are modelled from the
  specification and its tests, each such definition marked
  `Modelled from the spec`.

Machine integers are `Int`/`Nat`; Python dictionaries become association
lists; the multiprocessing queue becomes the list of messages put on it,
in order; fallible Python code returns `Except String _` whose error
value names the Python exception class.
-/

/-! ## Embedding of whmonit/common/time.py -/

/-- Python `int.bit_length`: the number of bits necessary to represent the
absolute value of the integer; `(0).bit_length() == 0`. -/
def bit_length (n : Int) : Nat :=
  if n = 0 then 0 else Nat.log2 n.natAbs + 1

/-- Embedding of `check_millisecond_timestamp` (time.py lines 76-84): the
input is already an `Int`, so the `isinstance` test always passes; the
function raises `MillisecondTimestampRangeError` when
`timestamp.bit_length() > 64` and otherwise returns the value unchanged. -/
def check_millisecond_timestamp (timestamp : Int) : Except String Int :=
  if bit_length timestamp > 64 then
    Except.error "MillisecondTimestampRangeError"
  else
    Except.ok timestamp

/-- A naive Python `datetime`, represented by the POSIX decomposition that
`datetime_to_milliseconds` observes: `seconds` is what
`calendar.timegm(dt.timetuple())` returns (whole seconds since the Unix
epoch, floored) and `microsecond` is the `dt.microsecond` field
(sub-second part, `0 ≤ microsecond < 1000000`).  Python `datetime`
ranges over years 1..9999, i.e. `seconds` between `-62135596800`
(0001-01-01 00:00:00) and `253402300799` (9999-12-31 23:59:59);
arithmetic leaving that range raises `OverflowError`. -/
structure PyDatetime where
  seconds : Int
  microsecond : Nat
deriving Repr, DecidableEq

/-- Smallest `PyDatetime.seconds` value (datetime.min, year 1). -/
def DATETIME_MIN_SECONDS : Int := -62135596800

/-- Largest `PyDatetime.seconds` value (datetime.max, year 9999). -/
def DATETIME_MAX_SECONDS : Int := 253402300799

/-- Embedding of `milliseconds_to_datetime` (time.py lines 115-121):
check the timestamp, then compute
`datetime.utcfromtimestamp(0) + timedelta(milliseconds=timestamp)`.
`timedelta` normalisation uses Python floor division, which for the
positive divisor 1000 coincides with Euclidean division; the result
overflows (`OverflowError`) when it leaves the representable
`datetime` range. -/
def milliseconds_to_datetime (timestamp : Int) : Except String PyDatetime :=
  (check_millisecond_timestamp timestamp).bind fun t =>
    if t / 1000 < DATETIME_MIN_SECONDS ∨ DATETIME_MAX_SECONDS < t / 1000 then
      Except.error "OverflowError"
    else
      Except.ok { seconds := t / 1000, microsecond := (t % 1000 * 1000).toNat }

/-- Python 2 `round`: round half away from zero. -/
def pyRound (q : Rat) : Int :=
  if q < 0 then -(Int.floor (-q + 1 / 2)) else Int.floor (q + 1 / 2)

/-- Embedding of `datetime_to_milliseconds` (time.py lines 99-112):
`int(round(calendar.timegm(dt.timetuple()) * 1000 + dt.microsecond / 1000.0))`
followed by `check_millisecond_timestamp`.  The arithmetic is modelled
exactly over `Rat`; on every `datetime` produced by
`milliseconds_to_datetime` the `microsecond` field is a multiple of
1000, for which the Python floating-point computation is exact, so the
rational model agrees with the code there. -/
def datetime_to_milliseconds (dt : PyDatetime) : Except String Int :=
  check_millisecond_timestamp
    (pyRound ((dt.seconds : Rat) * 1000 + (dt.microsecond : Rat) / 1000))

/-! ### Helper lemmas for the time embedding -/

theorem except_bind_ok {α β : Type} (a : α) (f : α → Except String β) :
    (Except.ok (ε := String) a).bind f = f a := rfl

theorem except_bind_error {α β : Type} (e : String) (f : α → Except String β) :
    (Except.error (α := α) e).bind (fun a => f a) =
      Except.error (α := β) e := rfl

theorem bit_length_le_64 (t : Int) (h : t.natAbs < 2 ^ 64) :
    ¬ bit_length t > 64 := by
  unfold bit_length
  by_cases h0 : t = 0
  · simp [h0]
  · have hna : t.natAbs ≠ 0 := by
      simpa [Int.natAbs_eq_zero] using h0
    have hlog : Nat.log2 t.natAbs < 64 := (Nat.log2_lt hna).mpr h
    simp only [h0, if_false]
    omega

theorem check_millisecond_timestamp_ok (t : Int) (h : t.natAbs < 2 ^ 64) :
    check_millisecond_timestamp t = Except.ok t := by
  unfold check_millisecond_timestamp
  simp [bit_length_le_64 t h]

theorem floor_intCast_add_half (m : Int) :
    Int.floor ((m : Rat) + 1 / 2) = m := by
  rw [Int.floor_eq_iff]
  constructor
  · norm_num
  · norm_num

theorem pyRound_intCast (n : Int) : pyRound (n : Rat) = n := by
  unfold pyRound
  by_cases h : (n : Rat) < 0
  · rw [if_pos h]
    have : (-(n : Rat)) = ((-n : Int) : Rat) := by push_cast; ring
    rw [this, floor_intCast_add_half]
    ring
  · rw [if_neg h, floor_intCast_add_half]

/-! ## Claims about the time module (C1, C10) -/

/-- C1: the claim says every timestamp outside the signed 64-bit range
raises an error, but `check_millisecond_timestamp` tests `bit_length > 64`,
and `2 ^ 63` (which exceeds the signed 64-bit maximum `2 ^ 63 - 1`) has
bit length exactly 64, so the code accepts it and returns it unchanged.
This contradicts the module docstring of time.py, which demands that
values not fitting an 8-byte signed int be treated as errors. -/
theorem check_millisecond_timestamp_accepts_out_of_range :
    check_millisecond_timestamp (2 ^ 63) = Except.ok (2 ^ 63) ∧
      (2 ^ 63 - 1 : Int) < 2 ^ 63 :=
  ⟨check_millisecond_timestamp_ok _ (by norm_num [Int.natAbs_pow]), by norm_num⟩

/-- C10 counterexample: the claim quantifies over every timestamp accepted
by `check_millisecond_timestamp`, but `2 ^ 50` milliseconds is accepted
(bit length 51) while `milliseconds_to_datetime` raises `OverflowError`
on it (the result lies beyond the year 9999), so the round trip is not
the identity there. -/
theorem milliseconds_roundtrip_fails_beyond_datetime_range :
    check_millisecond_timestamp (2 ^ 50) = Except.ok (2 ^ 50) ∧
      (milliseconds_to_datetime (2 ^ 50)).bind datetime_to_milliseconds ≠
        Except.ok (2 ^ 50) := by
  have hok : check_millisecond_timestamp (2 ^ 50) = Except.ok (2 ^ 50) :=
    check_millisecond_timestamp_ok _ (by norm_num [Int.natAbs_pow])
  refine ⟨hok, ?_⟩
  have herr : milliseconds_to_datetime (2 ^ 50) = Except.error "OverflowError" := by
    simp only [milliseconds_to_datetime, hok, except_bind_ok]
    rw [if_pos]
    right
    decide
  rw [herr]
  intro h
  exact Except.noConfusion h

/-- C10 (amended): for every millisecond timestamp inside the range
representable by a Python `datetime` (all of which
`check_millisecond_timestamp` accepts), converting to a `datetime` and
back is the identity. -/
theorem milliseconds_roundtrip (ts : Int)
    (h1 : -62135596800000 ≤ ts) (h2 : ts ≤ 253402300799999) :
    (milliseconds_to_datetime ts).bind datetime_to_milliseconds = Except.ok ts := by
  have hna : ts.natAbs < 2 ^ 64 := by
    have h64 : (2 ^ 64 : Nat) = 18446744073709551616 := by norm_num
    rw [h64]
    omega
  have hrange : ¬(ts / 1000 < DATETIME_MIN_SECONDS ∨ DATETIME_MAX_SECONDS < ts / 1000) := by
    simp only [DATETIME_MIN_SECONDS, DATETIME_MAX_SECONDS]
    omega
  have hmod : (0 : Int) ≤ ts % 1000 * 1000 :=
    mul_nonneg (Int.emod_nonneg ts (by norm_num)) (by norm_num)
  have harg : ((ts / 1000 : Int) : Rat) * 1000 + (((ts % 1000 * 1000).toNat : Nat) : Rat) / 1000
      = (ts : Rat) := by
    have hc : (((ts % 1000 * 1000).toNat : Nat) : Rat)
        = (((ts % 1000 * 1000).toNat : Int) : Rat) := by
      push_cast
      ring
    rw [hc, Int.toNat_of_nonneg hmod]
    have hid := congrArg (fun z : Int => (z : Rat)) (Int.ediv_add_emod ts 1000)
    push_cast at hid
    push_cast
    field_simp
    linarith
  simp only [milliseconds_to_datetime, check_millisecond_timestamp_ok ts hna, except_bind_ok,
    if_neg hrange, datetime_to_milliseconds]
  rw [harg, pyRound_intCast]
  exact check_millisecond_timestamp_ok ts hna

/-- C10 witness: the amended round-trip theorem applied at timestamp 0. -/
theorem milliseconds_roundtrip_witness :
    ((-62135596800000 : Int) ≤ 0 ∧ (0 : Int) ≤ 253402300799999) ∧
      (milliseconds_to_datetime 0).bind datetime_to_milliseconds = Except.ok 0 :=
  ⟨by norm_num, milliseconds_roundtrip 0 (by norm_num) (by norm_num)⟩

/-! ## Data model of the agent

The agent module itself (`whmonit/client/agent.py`) is not part of the
source tree; only its test suite is.  The definitions below are therefore
modelled from the specification, shaped by the call patterns and the
assertions of `agent_pytest_test.py`. -/

/-- A Python runtime type tag, as used by the StreamCatalog and by the
datatype registry of the agent. -/
inductive PyType where
  | float
  | int
  | str
  | bool
deriving Repr, DecidableEq

/-- A Python runtime value carried by a sensor result or a queue message.
Python float literals are denoted by their decimal value as a rational
number; no arithmetic is ever performed on them, they are only carried
through and compared. -/
inductive PyValue where
  | vfloat (x : Rat)
  | vint (n : Int)
  | vstr (s : String)
  | vbool (b : Bool)
deriving Repr, DecidableEq

/-- The runtime type of a value, as Python `type(value)` observes it. -/
def PyValue.typeOf : PyValue → PyType
  | .vfloat _ => .float
  | .vint _ => .int
  | .vstr _ => .str
  | .vbool _ => .bool

/-- A message put on the InterProcessQueue, with the fields the tests
assert on: `config_id`, `timestamp` (passed through unchanged, modelled
as a millisecond count), `stream_name`, `datatype` and `data`. -/
structure QueueMessage where
  config_id : String
  timestamp : Int
  stream_name : String
  datatype : PyType
  data : PyValue
deriving Repr, DecidableEq

/-- Modelled from the spec: the fixed registry of datatypes the agent can
serialize.  The spec and the tests pin down that Float (pass-through in
`test_send_results`) and Text (the error channel of log.py) belong to it
and that plain `int` does not (`test_send_results_bad_type` declares a
stream of type `int` and expects the point to be dropped). -/
def TYPE_REGISTRY : List PyType := [PyType.float, PyType.str]

/-- Lookup of a stream name in a StreamCatalog (an association list from
stream name to declared datatype, read-only to the SensorWorker). -/
def lookupStream (name : String) : List (String × PyType) → Option PyType
  | [] => none
  | (n, t) :: rest => if name = n then some t else lookupStream name rest

/-- Modelled from the spec: `SensorWorker.send_results` (tested by
`TestSensor` in agent_pytest_test.py).  For each `(stream_name, value)`
pair it drops the pair when the stream name is absent from the catalog,
drops it when the declared datatype is not in `TYPE_REGISTRY` or the
runtime type of the value differs from the declared datatype, and
otherwise puts one message on the InterProcessQueue; the returned list
is the messages put, in order. -/
def send_results (config_id : String) (streams : List (String × PyType))
    (timestamp : Int) (results : List (String × PyValue)) : List QueueMessage :=
  results.filterMap fun p =>
    match lookupStream p.1 streams with
    | none => none
    | some dt =>
        if dt ∈ TYPE_REGISTRY ∧ p.2.typeOf = dt then
          some { config_id := config_id, timestamp := timestamp,
                 stream_name := p.1, datatype := dt, data := p.2 }
        else
          none

/-! ## Claims about send_results (C2, C3, C4) -/

/-- C2: for every catalog declaring stream "default" with datatype Float,
`send_results` on the single pair `("default", 1.1)` puts exactly one
message on the queue, whose fields are the given `config_id` and
timestamp, stream name "default", datatype Float and data 1.1. -/
theorem send_results_single_float (config_id : String)
    (streams : List (String × PyType)) (timestamp : Int)
    (h : lookupStream "default" streams = some PyType.float) :
    send_results config_id streams timestamp
        [("default", PyValue.vfloat (11 / 10))] =
      [{ config_id := config_id, timestamp := timestamp,
         stream_name := "default", datatype := PyType.float,
         data := PyValue.vfloat (11 / 10) }] := by
  simp [send_results, h, TYPE_REGISTRY, PyValue.typeOf]

/-- C2 witness: the theorem applied to a concrete catalog declaring
exactly the stream "default" as Float, as the uptime sensor does. -/
theorem send_results_single_float_witness :
    lookupStream "default" [("default", PyType.float)] = some PyType.float ∧
      send_results "config_id" [("default", PyType.float)] 0
          [("default", PyValue.vfloat (11 / 10))] =
        [{ config_id := "config_id", timestamp := 0,
           stream_name := "default", datatype := PyType.float,
           data := PyValue.vfloat (11 / 10) }] :=
  ⟨by simp [lookupStream],
   send_results_single_float "config_id" [("default", PyType.float)] 0
     (by simp [lookupStream])⟩

/-- C3: a pair whose stream name is not declared in the StreamCatalog
contributes no message to the queue, wherever it occurs in the batch of
results. -/
theorem send_results_unknown_stream_dropped (config_id : String)
    (streams : List (String × PyType)) (timestamp : Int)
    (sn : String) (v : PyValue) (pre post : List (String × PyValue))
    (h : lookupStream sn streams = none) :
    send_results config_id streams timestamp (pre ++ (sn, v) :: post) =
      send_results config_id streams timestamp (pre ++ post) := by
  simp [send_results, h]

/-- C3 witness: the theorem applied to the test scenario of
`test_send_results_bad_stream`, stream "badstream" against the uptime
catalog; no message is enqueued. -/
theorem send_results_unknown_stream_dropped_witness :
    lookupStream "badstream" [("default", PyType.float)] = none ∧
      send_results "config_id" [("default", PyType.float)] 0
          ([] ++ ("badstream", PyValue.vfloat (11 / 10)) :: []) =
        send_results "config_id" [("default", PyType.float)] 0 ([] ++ []) :=
  ⟨by simp [lookupStream],
   send_results_unknown_stream_dropped "config_id" [("default", PyType.float)] 0
     "badstream" (PyValue.vfloat (11 / 10)) [] []
     (by simp [lookupStream])⟩

/-- C4: a pair whose declared datatype is absent from `TYPE_REGISTRY`, or
whose value has a runtime type different from the declared datatype,
contributes no message to the queue, wherever it occurs in the batch;
in particular an integer value on a stream declared Float is dropped
rather than upcast, and the function is total, so no exception
propagates. -/
theorem send_results_bad_datatype_dropped (config_id : String)
    (streams : List (String × PyType)) (timestamp : Int)
    (sn : String) (v : PyValue) (dt : PyType)
    (pre post : List (String × PyValue))
    (hdt : lookupStream sn streams = some dt)
    (h : dt ∉ TYPE_REGISTRY ∨ v.typeOf ≠ dt) :
    send_results config_id streams timestamp (pre ++ (sn, v) :: post) =
      send_results config_id streams timestamp (pre ++ post) := by
  have hcond : ¬(dt ∈ TYPE_REGISTRY ∧ v.typeOf = dt) := by
    rcases h with h | h
    · exact fun hc => h hc.1
    · exact fun hc => h hc.2
  simp [send_results, hdt, hcond]

/-- C4 witness: the theorem applied to the scenario of
`test_send_results_bad_datatype`, the integer 1 sent on the stream
"default" declared Float; the runtime types differ, so the point is
dropped. -/
theorem send_results_bad_datatype_dropped_witness :
    (lookupStream "default" [("default", PyType.float)] = some PyType.float ∧
        (PyValue.vint 1).typeOf ≠ PyType.float) ∧
      send_results "config_id" [("default", PyType.float)] 0
          ([] ++ ("default", PyValue.vint 1) :: []) =
        send_results "config_id" [("default", PyType.float)] 0 ([] ++ []) :=
  ⟨⟨by simp [lookupStream], by simp [PyValue.typeOf]⟩,
   send_results_bad_datatype_dropped "config_id" [("default", PyType.float)] 0
     "default" (PyValue.vint 1) PyType.float [] []
     (by simp [lookupStream]) (Or.inr (by simp [PyValue.typeOf]))⟩

/-! ## Supervisor spawn (C5) -/

/-- One sensor configuration entry, as fetched from the collector. -/
structure SensorConfig where
  config_id : String
  sensor : String
  target : String
  target_id : String
  frequency : Nat
deriving Repr, DecidableEq

/-- A child process of the AgentSupervisor. -/
inductive AgentChild where
  | shipper
  | receiver
  | sensorWorker (config_id : String)
deriving Repr, DecidableEq

/-- Modelled from the spec: the set of children the AgentSupervisor run
loop spawns (tested by `test_run_no_sensrs` and `test_run_one_sensor`):
one Shipper and one Receiver always, plus one SensorWorker per entry of
the sensor-config set whose sensor type is known; entries with an
unknown sensor type are skipped with a warning. -/
def spawn_children (known : String → Bool) (sensors : List SensorConfig) :
    List AgentChild :=
  [AgentChild.shipper, AgentChild.receiver] ++
    ((sensors.filter fun c => known c.sensor).map fun c =>
      AgentChild.sensorWorker c.config_id)

/-- C5: a supervisor run with an empty sensor-config set spawns exactly the
Shipper and the Receiver (so two children and zero SensorWorkers), and a
run with exactly one entry of a known sensor type spawns exactly three
children. -/
theorem spawn_children_counts (known : String → Bool) (c : SensorConfig)
    (h : known c.sensor = true) :
    spawn_children known [] = [AgentChild.shipper, AgentChild.receiver] ∧
      (spawn_children known [c]).length = 3 := by
  constructor
  · rfl
  · simp [spawn_children, h]

/-- C5 witness: the theorem applied to the single uptime entry used by
`test_run_one_sensor`. -/
theorem spawn_children_counts_witness :
    (fun s => s == "uptime") "uptime" = true ∧
      spawn_children (fun s => s == "uptime") [] =
          [AgentChild.shipper, AgentChild.receiver] ∧
        (spawn_children (fun s => s == "uptime")
            [{ config_id := "config_id", sensor := "uptime", target := "target",
               target_id := "target_id", frequency := 60 }]).length = 3 :=
  ⟨by decide,
   spawn_children_counts (fun s => s == "uptime")
     { config_id := "config_id", sensor := "uptime", target := "target",
       target_id := "target_id", frequency := 60 } (by decide)⟩

/-! ## Certificate bootstrap (C6, C8) -/

/-- A file system fragment: paths mapped to file contents. -/
def lookupFile (path : String) : List (String × String) → Option String
  | [] => none
  | (p, c) :: rest => if path = p then some c else lookupFile path rest

/-- Writing a file: replace the content at `path`, or append the file. -/
def setFile (path content : String) :
    List (String × String) → List (String × String)
  | [] => [(path, content)]
  | (p, c) :: rest =>
      if path = p then (path, content) :: rest
      else (p, c) :: setFile path content rest

theorem lookupFile_setFile (path content : String)
    (fs : List (String × String)) :
    lookupFile path (setFile path content fs) = some content := by
  induction fs with
  | nil => simp [setFile, lookupFile]
  | cons head rest ih =>
      by_cases h : path = head.1
      · simp [setFile, lookupFile, h]
      · simp [setFile, lookupFile, h, ih]

/-- An RPC request issued through the RequestManager, identified by method
group, method name and its single parameter `agent_id`. -/
structure RpcRequest where
  group : String
  method : String
  agent_id : String
deriving Repr, DecidableEq

/-- An HTTP request issued through `make_request`. -/
structure HttpRequest where
  method : String
  url : String
  body : String
deriving Repr, DecidableEq

/-- Modelled from the spec: `Agent.request_certificate` (tested by
`test_request_certificate`) reads the configured CSR file and submits
its raw content as the body of one `PUT` request to the `/csr` path of
the enrollment endpoint; a missing CSR file is a transport-level error
left to the caller.  The result is the list of HTTP requests made. -/
def request_certificate (webapi_url csr_path : String)
    (fs : List (String × String)) : Except String (List HttpRequest) :=
  match lookupFile csr_path fs with
  | none => Except.error "IOError"
  | some content =>
      Except.ok [{ method := "PUT", url := webapi_url ++ "/csr", body := content }]

/-- Modelled from the spec: `Agent.fetch_certificate` (tested by
`test_fetch_certificate`) issues one RPC request with method group
"certificates", method "fetch" and parameter `agent_id`; when the RPC
returns certificate text the text is written to the configured
certificate path.  The result is the list of RPC requests made, the
file system after the call, and whether a certificate was obtained. -/
def fetch_certificate (agent_id crt_path : String) (response : Option String)
    (fs : List (String × String)) :
    List RpcRequest × List (String × String) × Bool :=
  match response with
  | some crt =>
      ([{ group := "certificates", method := "fetch", agent_id := agent_id }],
       setFile crt_path crt fs, true)
  | none =>
      ([{ group := "certificates", method := "fetch", agent_id := agent_id }],
       fs, false)

/-- C6: `fetch_certificate` issues exactly one RPC request, with method
group "certificates", method "fetch" and the agent id as parameter, and
after the call the configured certificate file holds exactly the text
the RPC returned. -/
theorem fetch_certificate_effects (agent_id crt_path text : String)
    (fs : List (String × String)) :
    (fetch_certificate agent_id crt_path (some text) fs).1 =
        [{ group := "certificates", method := "fetch", agent_id := agent_id }] ∧
      lookupFile crt_path (fetch_certificate agent_id crt_path (some text) fs).2.1 =
        some text :=
  ⟨rfl, lookupFile_setFile crt_path text fs⟩

/-- C8: `request_certificate` makes exactly one HTTP request, a `PUT` to
the `/csr` path of the enrollment endpoint whose body is the raw
content of the configured CSR file. -/
theorem request_certificate_effects (webapi_url csr_path content : String)
    (fs : List (String × String))
    (h : lookupFile csr_path fs = some content) :
    request_certificate webapi_url csr_path fs =
      Except.ok [{ method := "PUT", url := webapi_url ++ "/csr",
                   body := content }] := by
  simp [request_certificate, h]

/-- C8 witness: the theorem applied to the scenario of
`test_request_certificate`, a CSR file holding "csr content". -/
theorem request_certificate_effects_witness :
    lookupFile "agent.csr" [("agent.csr", "csr content")] = some "csr content" ∧
      request_certificate "http://localhost:8000" "agent.csr"
          [("agent.csr", "csr content")] =
        Except.ok [{ method := "PUT", url := "http://localhost:8000" ++ "/csr",
                     body := "csr content" }] :=
  ⟨by simp [lookupFile],
   request_certificate_effects "http://localhost:8000" "agent.csr" "csr content"
     [("agent.csr", "csr content")] (by simp [lookupFile])⟩

/-! ## The error channel of log.py (C7) -/

/-- A Python log record, reduced to the fields `AgentErrorLogHandler`
observes: the numeric severity and the formatted message text that
`record.getMessage()` returns. -/
structure LogRecord where
  levelno : Nat
  message : String
deriving Repr, DecidableEq

/-- Severity `logging.ERROR`. -/
def LOG_ERROR : Nat := 40

/-- Severity `logging.CRITICAL`. -/
def LOG_CRITICAL : Nat := 50

/-- Embedding of `AgentErrorLogHandler.emit` (log.py lines 281-289): put
one message on the queue with the configured `config_id`, the message
text of the record, datatype `str`, the current UTC time (passed in as
`now`) and stream name "_error". -/
def AgentErrorLogHandler_emit (config_id : String) (now : Int)
    (record : LogRecord) : List QueueMessage :=
  [{ config_id := config_id, timestamp := now, stream_name := "_error",
     datatype := PyType.str, data := PyValue.vstr record.message }]

/-- Embedding of the handler dispatch for `AgentErrorLogHandler`: the
handler is constructed with level `logging.ERROR` (log.py line 277), and
the logging framework invokes `emit` exactly when the severity of the
record is at least the handler level. -/
def AgentErrorLogHandler_handle (config_id : String) (now : Int)
    (record : LogRecord) : List QueueMessage :=
  if LOG_ERROR ≤ record.levelno then
    AgentErrorLogHandler_emit config_id now record
  else
    []

/-- C7: every record of severity ERROR or CRITICAL handled by
`AgentErrorLogHandler` puts exactly one message on the queue, carrying
stream name "_error", datatype Text (`str`), the message text of the
record, the configured `config_id` and the current UTC timestamp. -/
theorem agent_error_log_handler_emits (config_id : String) (now : Int)
    (record : LogRecord)
    (h : record.levelno = LOG_ERROR ∨ record.levelno = LOG_CRITICAL) :
    AgentErrorLogHandler_handle config_id now record =
      [{ config_id := config_id, timestamp := now, stream_name := "_error",
         datatype := PyType.str, data := PyValue.vstr record.message }] := by
  have hle : LOG_ERROR ≤ record.levelno := by
    rcases h with h | h <;> simp [h, LOG_ERROR, LOG_CRITICAL]
  simp [AgentErrorLogHandler_handle, AgentErrorLogHandler_emit, hle]

/-- C7 witness: the theorem applied to an ERROR record. -/
theorem agent_error_log_handler_emits_witness :
    ((40 : Nat) = LOG_ERROR ∨ (40 : Nat) = LOG_CRITICAL) ∧
      AgentErrorLogHandler_handle "config_id" 0 { levelno := 40, message := "boom" } =
        [{ config_id := "config_id", timestamp := 0, stream_name := "_error",
           datatype := PyType.str, data := PyValue.vstr "boom" }] :=
  ⟨Or.inl (by decide),
   agent_error_log_handler_emits "config_id" 0
     { levelno := 40, message := "boom" } (Or.inl (by decide))⟩

/-! ## Shipper iteration (C9) -/

/-- A row of the DurableStore of the Shipper: a monotonic insertion id,
the serialized payload and the status flag (pending or shipped). -/
structure DurableRecord where
  rowid : Nat
  payload : QueueMessage
  shipped : Bool
deriving Repr, DecidableEq

/-- The DurableStore of the Shipper together with the next insertion id. -/
structure ShipperState where
  store : List DurableRecord
  next_id : Nat
deriving Repr, DecidableEq

/-- Modelled from the spec: the non-blocking drain of the available queue
messages into the DurableStore as pending rows, in queue order. -/
def drainQueue (st : ShipperState) (queue : List QueueMessage) : ShipperState :=
  queue.foldl
    (fun s m =>
      { store := s.store ++ [{ rowid := s.next_id, payload := m, shipped := false }],
        next_id := s.next_id + 1 })
    st

/-- The pending rows of the store, in insertion order. -/
def pendingRows (st : ShipperState) : List DurableRecord :=
  st.store.filter fun r => !r.shipped

/-- Marking the rows with the given ids as shipped after a positive
delivery acknowledgment. -/
def markShipped (st : ShipperState) (ids : List Nat) : ShipperState :=
  { store := st.store.map fun r =>
      if r.rowid ∈ ids then { r with shipped := true } else r,
    next_id := st.next_id }

/-- The outcome of one Shipper iteration: the new state, the batches
handed to the network delivery callback, and whether the iteration took
the idle path (sleeping for the poll interval). -/
structure ShipperIteration where
  state : ShipperState
  deliveries : List (List DurableRecord)
  idled : Bool
deriving Repr, DecidableEq

/-- Modelled from the spec: one iteration of the Shipper run loop (tested
by `test_run_no_data`): drain the queue into the store as pending rows,
select pending rows in insertion order up to the batch limit, and when
the batch is non-empty attempt delivery, marking the batch shipped on
success and leaving it pending on failure; an empty batch takes the
idle path with no delivery attempt.  The function is total, so the
iteration raises nothing. -/
def shipper_iteration (st : ShipperState) (queue : List QueueMessage)
    (batch_limit : Nat) (send_ok : Bool) : ShipperIteration :=
  let st1 := drainQueue st queue
  let batch := (pendingRows st1).take batch_limit
  if batch.isEmpty then
    { state := st1, deliveries := [], idled := true }
  else if send_ok then
    { state := markShipped st1 (batch.map DurableRecord.rowid),
      deliveries := [batch], idled := false }
  else
    { state := st1, deliveries := [batch], idled := false }

/-- C9: a Shipper iteration that starts with an empty queue and no pending
rows invokes the delivery callback on no batch, takes the idle path and
leaves the store untouched; being total, it raises nothing. -/
theorem shipper_iteration_no_data (st : ShipperState) (batch_limit : Nat)
    (send_ok : Bool) (h : pendingRows st = []) :
    shipper_iteration st [] batch_limit send_ok =
      { state := st, deliveries := [], idled := true } := by
  have hdrain : drainQueue st [] = st := rfl
  simp [shipper_iteration, hdrain, h]

/-- C9 witness: the theorem applied to a fresh empty store. -/
theorem shipper_iteration_no_data_witness :
    pendingRows { store := [], next_id := 0 } = [] ∧
      shipper_iteration { store := [], next_id := 0 } [] 100 true =
        { state := { store := [], next_id := 0 }, deliveries := [], idled := true } :=
  ⟨by simp [pendingRows],
   shipper_iteration_no_data { store := [], next_id := 0 } 100 true
     (by simp [pendingRows])⟩
